import Mathlib

/-!
Verification development for the nRF52 BLE Secure DFU host driver.

Shallow embedding of the driver's data model and state-machine handlers:
  * error taxonomy (`error.py`)
  * CRC-32 as used by the transfer loop (`zlib.crc32` with an initial value)
  * wire codec for Control-Point responses (`models/secure.py`)
  * state handlers of the Secure DFU state machine (`protocol/secure.py`)
  * package hash generation (`models/package.py`)

Python runtime failures (TypeError, NameError, ...) are modelled explicitly
as error values of `PyErr`, and fallible code returns `Except PyErr _`.
-/

/-- Error taxonomy of `error.py` (`DFUErrorCode`), one constructor per enum
variant, names kept verbatim (including the `FAILIRE` typo of the source). -/
inductive DFUErrorCode where
  | REMOTE_LEGACY_DFU_SUCCESS
  | REMOTE_LEGACY_DFU_INVALID_STATE
  | REMOTE_LEGACY_DFU_NOT_SUPPORTED
  | REMOTE_LEGACY_DFU_DATA_EXCEEDS_LIMIT
  | REMOTE_LEGACY_DFU_CRC_ERROR
  | REMOTE_LEGACY_DFU_OPERATION_FAILED
  | REMOTE_SECURE_DFU_SUCCESS
  | REMOTE_SECURE_DFU_OPCODE_NOT_SUPPORTED
  | REMOTE_SECURE_DFU_INVALID_PARAMETER
  | REMOTE_SECURE_DFU_INSUFFICIENT_RESOURCES
  | REMOTE_SECURE_DFU_INVALID_OBJECT
  | REMOTE_SECURE_DFU_UNSUPPORTED_TYPE
  | REMOTE_SECURE_DFU_OPERATION_NOT_PERMITTED
  | REMOTE_SECURE_DFU_OPERATION_FAILED
  | REMOTE_SECURE_DFU_EXTENDED_ERROR
  | REMOTE_EXTENDED_ERROR_UNKNOWN_COMMAND
  | REMOTE_EXTENDED_ERROR_INIT_COMMAND_INVALID
  | REMOTE_EXTENDED_ERROR_FW_VERSION_FAILURE
  | REMOTE_EXTENDED_ERROR_HW_VERSION_FAILURE
  | REMOTE_EXTENDED_ERROR_SD_VERSION_FAILIRE
  | REMOTE_EXTENDED_ERROR_WRONG_HASH_TYPE
  | REMOTE_EXTENDED_ERROR_HASH_FAILED
  | REMOTE_EXTENDED_ERROR_WRONG_SIGNATURE_TYPE
  | REMOTE_EXTENDED_ERROR_VERIFICATION_FAILED
  | REMOTE_EXTENDED_ERROR_INSUFFICIENT_SPACE
  | REMOTE_EXPERIMENTAL_BUTTONLESS_DFU_SUCCESS
  | REMOTE_EXPERIMENTAL_BUTTONLESS_DFU_OPCODE_NOT_SUPPORTED
  | REMOTE_EXPERIMENTAL_BUTTONLESS_DFU_OPERATION_FAILED
  | REMOTE_BUTTONLESS_DFU_SUCCESS
  | REMOTE_BUTTONLESS_DFU_OPCODE_NOT_SUPPORTED
  | REMOTE_BUTTONLESS_DFU_OPERATION_FAILED
  | REMOTE_BUTTONLESS_DFU_INVALID_ADVERTISEMENT_NAME
  | REMOTE_BUTTONLESS_DFU_BUSY
  | REMOTE_BUTTONLESS_DFU_NOT_BONDED
  | FILE_NOT_SPECIFIED
  | FILE_INVALID
  | EXTENDED_INIT_PACKET_REQUIRED
  | INIT_PACKET_REQUIRED
  | FAILED_TO_CONNECT
  | DEVICE_DISCONNECTED
  | BLUETOOTH_DISABLED
  | SERVICE_DISCOVERY_FAILED
  | DEVICE_NOT_SUPPORTED
  | READING_VERSION_FAILED
  | ENABLING_CONTROL_POINT_FAILED
  | WRITING_CHARACTERISITIC_FAILED
  | RECEIVING_NOTIFICATIONS_FAILED
  | UNSUPPORTED_RESPONSE
  | BYTES_LOST
  | CRC_ERROR
  | INVALID_INTERNAL_STATE
  deriving DecidableEq

/-- Numeric code of each `DFUErrorCode` variant, from `error.py` lines 34-99. -/
def DFUErrorCode.code : DFUErrorCode → Nat
  | .REMOTE_LEGACY_DFU_SUCCESS => 1
  | .REMOTE_LEGACY_DFU_INVALID_STATE => 2
  | .REMOTE_LEGACY_DFU_NOT_SUPPORTED => 3
  | .REMOTE_LEGACY_DFU_DATA_EXCEEDS_LIMIT => 4
  | .REMOTE_LEGACY_DFU_CRC_ERROR => 5
  | .REMOTE_LEGACY_DFU_OPERATION_FAILED => 6
  | .REMOTE_SECURE_DFU_SUCCESS => 11
  | .REMOTE_SECURE_DFU_OPCODE_NOT_SUPPORTED => 12
  | .REMOTE_SECURE_DFU_INVALID_PARAMETER => 13
  | .REMOTE_SECURE_DFU_INSUFFICIENT_RESOURCES => 14
  | .REMOTE_SECURE_DFU_INVALID_OBJECT => 15
  | .REMOTE_SECURE_DFU_UNSUPPORTED_TYPE => 17
  | .REMOTE_SECURE_DFU_OPERATION_NOT_PERMITTED => 18
  | .REMOTE_SECURE_DFU_OPERATION_FAILED => 20
  | .REMOTE_SECURE_DFU_EXTENDED_ERROR => 21
  | .REMOTE_EXTENDED_ERROR_UNKNOWN_COMMAND => 23
  | .REMOTE_EXTENDED_ERROR_INIT_COMMAND_INVALID => 24
  | .REMOTE_EXTENDED_ERROR_FW_VERSION_FAILURE => 25
  | .REMOTE_EXTENDED_ERROR_HW_VERSION_FAILURE => 26
  | .REMOTE_EXTENDED_ERROR_SD_VERSION_FAILIRE => 27
  | .REMOTE_EXTENDED_ERROR_WRONG_HASH_TYPE => 29
  | .REMOTE_EXTENDED_ERROR_HASH_FAILED => 30
  | .REMOTE_EXTENDED_ERROR_WRONG_SIGNATURE_TYPE => 31
  | .REMOTE_EXTENDED_ERROR_VERIFICATION_FAILED => 32
  | .REMOTE_EXTENDED_ERROR_INSUFFICIENT_SPACE => 33
  | .REMOTE_EXPERIMENTAL_BUTTONLESS_DFU_SUCCESS => 9001
  | .REMOTE_EXPERIMENTAL_BUTTONLESS_DFU_OPCODE_NOT_SUPPORTED => 9002
  | .REMOTE_EXPERIMENTAL_BUTTONLESS_DFU_OPERATION_FAILED => 9004
  | .REMOTE_BUTTONLESS_DFU_SUCCESS => 91
  | .REMOTE_BUTTONLESS_DFU_OPCODE_NOT_SUPPORTED => 92
  | .REMOTE_BUTTONLESS_DFU_OPERATION_FAILED => 94
  | .REMOTE_BUTTONLESS_DFU_INVALID_ADVERTISEMENT_NAME => 95
  | .REMOTE_BUTTONLESS_DFU_BUSY => 96
  | .REMOTE_BUTTONLESS_DFU_NOT_BONDED => 97
  | .FILE_NOT_SPECIFIED => 101
  | .FILE_INVALID => 102
  | .EXTENDED_INIT_PACKET_REQUIRED => 103
  | .INIT_PACKET_REQUIRED => 104
  | .FAILED_TO_CONNECT => 201
  | .DEVICE_DISCONNECTED => 202
  | .BLUETOOTH_DISABLED => 203
  | .SERVICE_DISCOVERY_FAILED => 301
  | .DEVICE_NOT_SUPPORTED => 302
  | .READING_VERSION_FAILED => 303
  | .ENABLING_CONTROL_POINT_FAILED => 304
  | .WRITING_CHARACTERISITIC_FAILED => 305
  | .RECEIVING_NOTIFICATIONS_FAILED => 306
  | .UNSUPPORTED_RESPONSE => 307
  | .BYTES_LOST => 308
  | .CRC_ERROR => 309
  | .INVALID_INTERNAL_STATE => 500

/-- Method `DFUError.ok` (`error.py` lines 14-15): `self.code in [1, 11, 91, 9001]`. -/
def DFUErrorCode.ok (e : DFUErrorCode) : Bool :=
  [1, 11, 91, 9001].contains e.code

/-- Method `DFUErrorCode.is_remote` (`error.py` lines 104-106):
`self.value.code < 100 or self.value.code > 9000`. -/
def DFUErrorCode.is_remote (e : DFUErrorCode) : Bool :=
  decide (e.code < 100) || decide (e.code > 9000)

/-- Python runtime exceptions (and raised DFU errors) that the embedded code
can produce. -/
inductive PyErr where
  | typeError
  | indexError
  | nameError
  | unboundLocalError
  | attributeError
  | valueError
  | keyError
  | assertionError
  | overflowError
  | zeroDivisionError
  | dfuErr (code : DFUErrorCode)
  deriving DecidableEq

/-- One bit-step of the reflected CRC-32 polynomial 0xEDB88320 (zlib `crc32`). -/
def crc32Round (c : Nat) : Nat :=
  if c % 2 = 1 then (c / 2) ^^^ 0xEDB88320 else c / 2

/-- CRC-32 update of the running remainder with one input byte (8 bit-steps). -/
def crc32Update (c b : Nat) : Nat :=
  crc32Round^[8] (c ^^^ (b % 256))

/-- Fold of the CRC-32 update over a byte string. -/
def crc32Body (crc : Nat) (data : List Nat) : Nat :=
  data.foldl crc32Update crc

/-- Function `zlib.crc32(data, value)`: pre- and post-conditioning with
0xFFFFFFFF around the table-less bitwise remainder computation.  The driver
calls it both one-shot (`crc32(txdata)`, second argument 0) and streaming
(`crc32(pkt, local_crc)`, `protocol/secure.py` line 576). -/
def crc32 (data : List Nat) (init : Nat) : Nat :=
  (crc32Body ((init % 4294967296) ^^^ 0xFFFFFFFF) data) ^^^ 0xFFFFFFFF

theorem crc32Round_lt {c : Nat} (h : c < 4294967296) : crc32Round c < 4294967296 := by
  unfold crc32Round
  have hdiv : c / 2 < 4294967296 := lt_of_le_of_lt (Nat.div_le_self c 2) h
  split
  · have : (4294967296 : Nat) = 2 ^ 32 := by norm_num
    rw [this] at hdiv ⊢
    exact Nat.xor_lt_two_pow hdiv (by norm_num)
  · exact hdiv

theorem crc32Round_iter_lt {c : Nat} (n : Nat) (h : c < 4294967296) :
    crc32Round^[n] c < 4294967296 := by
  induction n generalizing c with
  | zero => simpa using h
  | succ n ih =>
    rw [Function.iterate_succ_apply]
    exact ih (crc32Round_lt h)

theorem crc32Update_lt {c : Nat} (b : Nat) (h : c < 4294967296) :
    crc32Update c b < 4294967296 := by
  unfold crc32Update
  apply crc32Round_iter_lt
  have : (4294967296 : Nat) = 2 ^ 32 := by norm_num
  rw [this] at h ⊢
  exact Nat.xor_lt_two_pow h (lt_of_lt_of_le (Nat.mod_lt _ (by norm_num)) (by norm_num))

theorem crc32Body_lt {crc : Nat} (data : List Nat) (h : crc < 4294967296) :
    crc32Body crc data < 4294967296 := by
  induction data generalizing crc with
  | nil => simpa [crc32Body] using h
  | cons b bs ih => exact ih (crc32Update_lt b h)

theorem crc32_lt (data : List Nat) (init : Nat) : crc32 data init < 4294967296 := by
  unfold crc32
  have h1 : (init % 4294967296) ^^^ 0xFFFFFFFF < 4294967296 := by
    have : (4294967296 : Nat) = 2 ^ 32 := by norm_num
    rw [this]
    exact Nat.xor_lt_two_pow (this ▸ Nat.mod_lt _ (by norm_num)) (by norm_num)
  have h2 := crc32Body_lt data h1
  have : (4294967296 : Nat) = 2 ^ 32 := by norm_num
  rw [this] at h2 ⊢
  exact Nat.xor_lt_two_pow h2 (by norm_num)

theorem crc32_append (a b : List Nat) (init : Nat) :
    crc32 (a ++ b) init = crc32 b (crc32 a init) := by
  unfold crc32 crc32Body
  rw [List.foldl_append]
  congr 1
  have hlt : List.foldl crc32Update ((init % 4294967296) ^^^ 0xFFFFFFFF) a < 4294967296 := by
    apply crc32Body_lt
    have h32 : (4294967296 : Nat) = 2 ^ 32 := by norm_num
    rw [h32]
    exact Nat.xor_lt_two_pow (h32 ▸ Nat.mod_lt _ (by norm_num)) (by norm_num)
  set x := List.foldl crc32Update ((init % 4294967296) ^^^ 0xFFFFFFFF) a with hx
  have hmod : (x ^^^ 0xFFFFFFFF) % 4294967296 = x ^^^ 0xFFFFFFFF := by
    apply Nat.mod_eq_of_lt
    have h32 : (4294967296 : Nat) = 2 ^ 32 := by norm_num
    rw [h32] at hlt ⊢
    exact Nat.xor_lt_two_pow hlt (by norm_num)
  rw [hmod, Nat.xor_assoc, Nat.xor_self, Nat.xor_zero]

/-- Streaming CRC accumulator of the transfer loop: `protocol/secure.py` line
576 performs `context.local_crc = crc32(context.pkt, context.local_crc)` once
per committed packet, starting from `local_crc = 0` at the start of the phase. -/
def localCrcAfter (pkts : List (List Nat)) : Nat :=
  pkts.foldl (fun crc pkt => crc32 pkt crc) 0

theorem localCrcFoldl_eq (pkts : List (List Nat)) (c : Nat) (hc : c < 4294967296) :
    pkts.foldl (fun crc pkt => crc32 pkt crc) c = crc32 pkts.flatten c := by
  induction pkts generalizing c with
  | nil =>
    simp [crc32, crc32Body, Nat.mod_eq_of_lt hc, Nat.xor_assoc]
  | cons p ps ih =>
    simp only [List.foldl_cons, List.flatten_cons]
    rw [ih (crc32 p c) (crc32_lt p c), crc32_append]

/-- C7: for every variant of the error taxonomy, `ok()` is true exactly for the
numeric codes 1, 11, 91 and 9001, and `is_remote()` is true exactly when the
variant's code is below 100 or above 9000. -/
theorem c7_ok_is_remote :
    ∀ e : DFUErrorCode,
      (e.ok = true ↔ e.code ∈ [1, 11, 91, 9001]) ∧
      (e.is_remote = true ↔ (e.code < 100 ∨ e.code > 9000)) := by
  intro e
  cases e <;> exact ⟨by decide, by decide⟩

/-- C8: at every PRN boundary of the transfer loop (after any number `k` of
per-packet updates `local_crc = crc32(pkt, local_crc)` starting from 0), the
streaming accumulator equals the one-shot `crc32` of the concatenation of all
packet bytes committed so far in the current phase. -/
theorem c8_streaming_crc (pkts : List (List Nat)) (k : Nat) :
    localCrcAfter (pkts.take k) = crc32 (pkts.take k).flatten 0 :=
  localCrcFoldl_eq (pkts.take k) 0 (by norm_num)

/-- Opcodes of `models/secure.py` (`SecureDFUOpcode`). -/
inductive SecureDFUOpcode where
  | PROTOCOL_VERSION
  | OBJECT_CREATE
  | RECEIPT_NOTIF_SET
  | CRC_GET
  | OBJECT_EXECUTE
  | OBJECT_SELECT
  | MTU_GET
  | OBJECT_WRITE
  | PING
  | HARDWARE_VERSION
  | FIRMWARE_VERSION
  | ABORT
  | RESPONSE
  deriving DecidableEq

/-- Numeric value of each opcode. -/
def SecureDFUOpcode.toNat : SecureDFUOpcode → Nat
  | .PROTOCOL_VERSION => 0x00
  | .OBJECT_CREATE => 0x01
  | .RECEIPT_NOTIF_SET => 0x02
  | .CRC_GET => 0x03
  | .OBJECT_EXECUTE => 0x04
  | .OBJECT_SELECT => 0x06
  | .MTU_GET => 0x07
  | .OBJECT_WRITE => 0x08
  | .PING => 0x09
  | .HARDWARE_VERSION => 0x0A
  | .FIRMWARE_VERSION => 0x0B
  | .ABORT => 0x0C
  | .RESPONSE => 0x60

/-- Enum lookup `SecureDFUOpcode(value)`; `none` models the `ValueError`
raised by Python for a value that is not a member. -/
def SecureDFUOpcode.ofNat? (n : Nat) : Option SecureDFUOpcode :=
  if n = 0x00 then some .PROTOCOL_VERSION
  else if n = 0x01 then some .OBJECT_CREATE
  else if n = 0x02 then some .RECEIPT_NOTIF_SET
  else if n = 0x03 then some .CRC_GET
  else if n = 0x04 then some .OBJECT_EXECUTE
  else if n = 0x06 then some .OBJECT_SELECT
  else if n = 0x07 then some .MTU_GET
  else if n = 0x08 then some .OBJECT_WRITE
  else if n = 0x09 then some .PING
  else if n = 0x0A then some .HARDWARE_VERSION
  else if n = 0x0B then some .FIRMWARE_VERSION
  else if n = 0x0C then some .ABORT
  else if n = 0x60 then some .RESPONSE
  else none

/-- Result codes of `models/secure.py` (`SecureDFUResultCode`). -/
inductive SecureDFUResultCode where
  | INVALID
  | SUCCESS
  | OPCODE_NOT_SUPPORTED
  | INVALID_PARAMETER
  | INSUFFICIENT_RESOURCES
  | INVALID_OBJECT
  | UNSUPPORTED_TYPE
  | OPERATION_NOT_PERMITTED
  | OPERATION_FAILED
  | EXTENDED_ERROR
  deriving DecidableEq

/-- Enum lookup `SecureDFUResultCode(value)`; `none` models `ValueError`. -/
def SecureDFUResultCode.ofNat? (n : Nat) : Option SecureDFUResultCode :=
  if n = 0x00 then some .INVALID
  else if n = 0x01 then some .SUCCESS
  else if n = 0x02 then some .OPCODE_NOT_SUPPORTED
  else if n = 0x03 then some .INVALID_PARAMETER
  else if n = 0x04 then some .INSUFFICIENT_RESOURCES
  else if n = 0x05 then some .INVALID_OBJECT
  else if n = 0x07 then some .UNSUPPORTED_TYPE
  else if n = 0x08 then some .OPERATION_NOT_PERMITTED
  else if n = 0x0A then some .OPERATION_FAILED
  else if n = 0x0B then some .EXTENDED_ERROR
  else none

/-- Method `SecureDFUResultCode.error`: the enum item lookup
`DFUErrorCode["REMOTE_SECURE_DFU_" + name]`; for `INVALID` no such member
exists, which is a Python `KeyError`. -/
def SecureDFUResultCode.error : SecureDFUResultCode → Except PyErr DFUErrorCode
  | .INVALID => .error .keyError
  | .SUCCESS => .ok .REMOTE_SECURE_DFU_SUCCESS
  | .OPCODE_NOT_SUPPORTED => .ok .REMOTE_SECURE_DFU_OPCODE_NOT_SUPPORTED
  | .INVALID_PARAMETER => .ok .REMOTE_SECURE_DFU_INVALID_PARAMETER
  | .INSUFFICIENT_RESOURCES => .ok .REMOTE_SECURE_DFU_INSUFFICIENT_RESOURCES
  | .INVALID_OBJECT => .ok .REMOTE_SECURE_DFU_INVALID_OBJECT
  | .UNSUPPORTED_TYPE => .ok .REMOTE_SECURE_DFU_UNSUPPORTED_TYPE
  | .OPERATION_NOT_PERMITTED => .ok .REMOTE_SECURE_DFU_OPERATION_NOT_PERMITTED
  | .OPERATION_FAILED => .ok .REMOTE_SECURE_DFU_OPERATION_FAILED
  | .EXTENDED_ERROR => .ok .REMOTE_SECURE_DFU_EXTENDED_ERROR

/-- Procedure (object) types of `models/secure.py` (`SecureDFUProcedureType`). -/
inductive SecureDFUProcedureType where
  | INVALID
  | COMMAND
  | DATA
  deriving DecidableEq

/-- Numeric value of each procedure type (`INVALID=0, COMMAND=1, DATA=2`). -/
def SecureDFUProcedureType.toNat : SecureDFUProcedureType → Nat
  | .INVALID => 0
  | .COMMAND => 1
  | .DATA => 2

/-- Little-endian `int.from_bytes(bs, 'little')` on a byte list. -/
def intFromBytesLE (bs : List Nat) : Nat :=
  bs.foldr (fun b acc => b + 256 * acc) 0

/-- Little-endian `val.to_bytes(len, 'little')` digits (the caller checks the
`OverflowError` bound `val < 256 ^ len`). -/
def natToBytesLE : Nat → Nat → List Nat
  | 0, _ => []
  | n + 1, v => (v % 256) :: natToBytesLE n (v / 256)

/-- Decoded Control-Point response, mirroring the slots of
`SecureDFUResponse` in `models/secure.py`. -/
structure SecureDFUResponse where
  data : List Nat
  opcode : SecureDFUOpcode
  reqOpcode : SecureDFUOpcode
  status : SecureDFUResultCode
  maxSize : Option Nat
  offset : Option Nat
  crc : Option Nat
  error : Option Nat
  deriving DecidableEq

/-- Constructor `SecureDFUResponse.__init__` (`models/secure.py` lines 233-275)
as a decode function on the inbound byte sequence.  Failed `assert`s raise
`AssertionError` and failed enum lookups raise `ValueError`.  In the
`EXTENDED_ERROR` arm the source evaluates `int.from_bytes(data[3], 'little')`:
`data[3]` is an `int` (a scalar index, not a slice), and `int.from_bytes`
rejects an `int` argument with `TypeError`. -/
def responseDecode (data : List Nat) : Except PyErr SecureDFUResponse := do
  match data with
  | b0 :: b1 :: b2 :: _ =>
    let some opcode := SecureDFUOpcode.ofNat? b0 | throw .valueError
    if opcode ≠ .RESPONSE then throw .assertionError
    let some reqOpcode := SecureDFUOpcode.ofNat? b1 | throw .valueError
    let some status := SecureDFUResultCode.ofNat? b2 | throw .valueError
    let base : SecureDFUResponse :=
      { data := data, opcode := opcode, reqOpcode := reqOpcode, status := status,
        maxSize := none, offset := none, crc := none, error := none }
    if status = .EXTENDED_ERROR then
      if data.length < 4 then throw .assertionError
      else throw .typeError
    else if status ≠ .SUCCESS then
      pure base
    else
      match reqOpcode with
      | .OBJECT_SELECT =>
        if data.length < 15 then throw .assertionError
        else pure { base with
          maxSize := some (intFromBytesLE ((data.drop 3).take 4)),
          offset := some (intFromBytesLE ((data.drop 7).take 4)),
          crc := some (intFromBytesLE ((data.drop 11).take 4)) }
      | .CRC_GET =>
        if data.length < 11 then throw .assertionError
        else pure { base with
          offset := some (intFromBytesLE ((data.drop 3).take 4)),
          crc := some (intFromBytesLE ((data.drop 7).take 4)) }
      | _ => pure base
  | _ => throw .assertionError

/-- Constructor `SecureDFURequest.__init__` for opcode `OBJECT_CREATE`
(`models/secure.py` lines 159-177): `assert object_type` rejects `None` and
the falsy `INVALID` (value 0); `assert object_size` rejects `None` and 0;
`object_size.to_bytes(4, 'little')` raises `OverflowError` at `2^32`. -/
def requestObjectCreate (objectType : Option SecureDFUProcedureType)
    (objectSize : Option Nat) : Except PyErr (List Nat) :=
  match objectType with
  | none => .error .assertionError
  | some t =>
    if t = .INVALID then .error .assertionError
    else match objectSize with
      | none => .error .assertionError
      | some n =>
        if n = 0 then .error .assertionError
        else if 4294967296 ≤ n then .error .overflowError
        else .ok ([SecureDFUOpcode.OBJECT_CREATE.toNat] ++ [t.toNat] ++ natToBytesLE 4 n)

/-- C3: response decoding fails when byte 0 is not 0x60; on SUCCESS with
request opcode OBJECT_SELECT it extracts max_size, offset and crc from bytes
3:7, 7:11 and 11:15 as little-endian uint32; on SUCCESS with request opcode
CRC_GET it extracts offset and crc from bytes 3:7 and 7:11; but on
EXTENDED_ERROR the source passes the scalar `data[3]` to `int.from_bytes`,
which raises `TypeError` instead of extracting the sub-code from byte 3
(shown here at the concrete frame `60 01 0B 04`). -/
theorem c3_response_decode :
    responseDecode [0x01, 0x06, 0x01] = .error .assertionError ∧
    responseDecode [0x60, 0x06, 0x01, 0, 1, 0, 0, 140, 0, 0, 0, 0xEF, 0xBE, 0xAD, 0xDE] =
      .ok { data := [0x60, 0x06, 0x01, 0, 1, 0, 0, 140, 0, 0, 0, 0xEF, 0xBE, 0xAD, 0xDE],
            opcode := .RESPONSE, reqOpcode := .OBJECT_SELECT, status := .SUCCESS,
            maxSize := some 256, offset := some 140, crc := some 3735928559,
            error := none } ∧
    responseDecode [0x60, 0x03, 0x01, 20, 0, 0, 0, 1, 2, 3, 4] =
      .ok { data := [0x60, 0x03, 0x01, 20, 0, 0, 0, 1, 2, 3, 4],
            opcode := .RESPONSE, reqOpcode := .CRC_GET, status := .SUCCESS,
            maxSize := none, offset := some 20, crc := some 67305985,
            error := none } ∧
    responseDecode [0x60, 0x01, 0x0B, 0x04] = .error .typeError := by
  refine ⟨by rfl, by rfl, by rfl, by rfl⟩

/-- C10: an OBJECT_CREATE request frame is constructed only for a nonzero
object size and a procedure type that is COMMAND or DATA (INVALID, value 0,
is falsy and rejected by the assert), and every successfully constructed
frame is exactly 6 bytes: opcode 0x01, the 1-byte type, and the 4-byte
little-endian size. -/
theorem c10_object_create_frame (t? : Option SecureDFUProcedureType) (n? : Option Nat)
    (out : List Nat) (h : requestObjectCreate t? n? = .ok out) :
    ∃ t n, t? = some t ∧ n? = some n ∧
      (t = .COMMAND ∨ t = .DATA) ∧ n ≠ 0 ∧
      out = 0x01 :: t.toNat :: natToBytesLE 4 n ∧ out.length = 6 := by
  rcases t? with _ | t
  · simp [requestObjectCreate] at h
  rcases n? with _ | n
  · by_cases ht : t = .INVALID <;> simp [requestObjectCreate, ht] at h
  by_cases ht : t = .INVALID
  · simp [requestObjectCreate, ht] at h
  by_cases hn : n = 0
  · simp [requestObjectCreate, ht, hn] at h
  by_cases hb : 4294967296 ≤ n
  · simp [requestObjectCreate, ht, hn, hb] at h
  simp only [requestObjectCreate, ht, hn, hb, if_false, ite_false] at h
  injection h with h
  subst h
  refine ⟨t, n, rfl, rfl, ?_, hn, rfl, ?_⟩
  · cases t
    · exact absurd rfl ht
    · exact Or.inl rfl
    · exact Or.inr rfl
  · simp [natToBytesLE]

/-- Witness for C10 at the concrete request `OBJECT_CREATE(DATA, 64)`. -/
theorem c10_object_create_frame_witness :
    ∃ t n, (some SecureDFUProcedureType.DATA) = some t ∧ (some 64 : Option Nat) = some n ∧
      (t = .COMMAND ∨ t = .DATA) ∧ n ≠ 0 ∧
      ([1, 2, 64, 0, 0, 0] : List Nat) = 0x01 :: t.toNat :: natToBytesLE 4 n ∧
      ([1, 2, 64, 0, 0, 0] : List Nat).length = 6 :=
  c10_object_create_frame (some .DATA) (some 64) [1, 2, 64, 0, 0, 0] (by rfl)

/-- States of the Secure DFU state machine (`protocol/secure.py`,
`SecureTxState`). -/
inductive SecureTxState where
  | DISCONNECTED
  | CONNECTING
  | TRANSFER_READY
  | PREPARING_DATA_OBJECT
  | SELECT_OBJECT
  | CREATE_OBJECT
  | TRANSFERRING_OBJECT
  | VALIDATE_OBJECT
  | EXECUTE_OBJECT
  | TRANSFER_DONE
  deriving DecidableEq

/-- Mutable session state of `SecureDFUContext` (`protocol/secure.py` lines
122-186), restricted to the fields the embedded handlers read or write.
`offset` and `targetCrc` are `Option Nat` because the source assigns them
response fields that can be Python `None`. -/
structure SecureDFUContext where
  txdata : List Nat
  object : Option (List Nat)
  objType : SecureDFUProcedureType
  imgInitData : List Nat
  imgData : List Nat
  prn : Nat
  localCrc : Nat
  bytesSent : Nat
  objectsSent : Nat
  numObjects : Nat
  attempts : Nat
  maxSize : Nat
  offset : Option Nat
  targetCrc : Option Nat
  pkt : List Nat
  deriving DecidableEq

/-- Helper `check_response` (`protocol/secure.py` lines 54-59): a non-SUCCESS
status raises the corresponding `DFUErrorCode` (the response object itself is
always truthy here, so the `DEVICE_DISCONNECTED` arm is not reachable from
`get_response`). -/
def check_response (status : SecureDFUResultCode) : Except PyErr Unit :=
  if status = .SUCCESS then .ok ()
  else
    match status.error with
    | .ok e => .error (.dfuErr e)
    | .error x => .error x

/-- Handler `SelectObjectStateHandler.handle` (`protocol/secure.py` lines
462-503).  The response fields `max_size`, `offset` and `crc` are stored into
the context; when the response carried no SELECT payload they are `None` and
every reachable path then compares or adds `None` to an `int`, a `TypeError`
(collapsed to the single `typeError` arm below).  In the resume branch the
source evaluates `crc32(context.txdata[context.offset])`: a scalar index, so
for `0 < offset < len(txdata)` the argument of `crc32` is an `int`
(`TypeError`) and for `offset == len(txdata)` the index itself is out of
range (`IndexError`). -/
def selectHandle (ctx : SecureDFUContext) (res : SecureDFUResponse) :
    Except PyErr (SecureDFUContext × SecureTxState) := do
  check_response res.status
  match res.maxSize, res.offset, res.crc with
  | some maxSize, some offset, some targetCrc =>
    let ctx := { ctx with maxSize := maxSize, offset := some offset,
                          targetCrc := some targetCrc }
    let ctx ←
      if ctx.numObjects = 0 then
        if ctx.objType = .COMMAND then
          if maxSize = 0 then throw .zeroDivisionError
          else pure { ctx with numObjects := (ctx.imgInitData.length + maxSize - 1) / maxSize }
        else if ctx.objType = .DATA then
          if maxSize = 0 then throw .zeroDivisionError
          else pure { ctx with numObjects := (ctx.imgData.length + maxSize - 1) / maxSize }
        else pure ctx
      else pure ctx
    if offset = ctx.txdata.length ∧ targetCrc = crc32 ctx.txdata 0 then
      pure ({ ctx with object := some (ctx.txdata.take maxSize) }, .EXECUTE_OBJECT)
    else if offset ≠ 0 ∧ offset ≤ ctx.txdata.length then
      if offset < ctx.txdata.length then throw .typeError else throw .indexError
    else
      pure (ctx, .CREATE_OBJECT)
  | _, _, _ => throw .typeError

/-- Handler `ValidateObjectStateHandler.handle` (`protocol/secure.py` lines
624-642).  On a CRC mismatch with retries left the source executes
`objects_sent -= 1` on the bare (never assigned) local name `objects_sent`,
which raises `UnboundLocalError` before the transition to CREATE_OBJECT. -/
def validateHandle (ctx : SecureDFUContext) (res : SecureDFUResponse) :
    Except PyErr (SecureDFUContext × SecureTxState) := do
  if res.reqOpcode ≠ .CRC_GET then throw .assertionError
  check_response res.status
  let ctx := { ctx with targetCrc := res.crc }
  if res.crc ≠ some ctx.localCrc then
    if ctx.attempts ≥ 3 then throw (.dfuErr .CRC_ERROR)
    else throw .unboundLocalError
  else
    pure (ctx, .EXECUTE_OBJECT)

/-- Class-level variables of `TransferringObjectStateHandler` set in `entry`
(`protocol/secure.py` lines 531-553). -/
structure TransferVars where
  totalPkts : Nat
  pktsSent : Nat
  objectData : List Nat
  deriving DecidableEq

/-- Result of one invocation of the TRANSFERRING_OBJECT `handle` step. -/
inductive TransferOutcome where
  | handled (cls : TransferVars) (ctx : SecureDFUContext)
  | transitioned (cls : TransferVars) (ctx : SecureDFUContext) (next : SecureTxState)
  deriving DecidableEq

/-- Packet Receipt Notification as parsed by `get_prn`
(`SecureDFUPacketReceiptNotification` in `models/secure.py`). -/
structure SecureDFUPRN where
  reqOpcode : SecureDFUOpcode
  status : SecureDFUResultCode
  offset : Option Nat
  crc : Option Nat
  deriving DecidableEq

/-- Handler `TransferringObjectStateHandler.handle` (`protocol/secure.py`
lines 557-606).  `setPrnStatus` is the status of the response consumed when
the PRN value is lowered for a short final group; `prnNotif` is the Packet
Receipt Notification consumed when one is expected.  `DEFAULT_PRN = 10`,
`GATT_PKT_SIZE = 20`.  `pkts_sent % prn` with `prn = 0` is a Python
`ZeroDivisionError`. -/
def transferHandle (cls : TransferVars) (ctx : SecureDFUContext)
    (setPrnStatus : SecureDFUResultCode) (prnNotif : SecureDFUPRN) :
    Except PyErr TransferOutcome :=
  if cls.pktsSent ≥ cls.totalPkts then
    .ok (.transitioned cls { ctx with objectsSent := ctx.objectsSent + 1 } .VALIDATE_OBJECT)
  else
    let remainingPkts := cls.totalPkts - cls.pktsSent
    let lowered : Except PyErr SecureDFUContext :=
      if cls.pktsSent % 10 = 0 ∧ remainingPkts < ctx.prn then
        match check_response setPrnStatus with
        | .error e => .error e
        | .ok _ => .ok { ctx with prn := remainingPkts }
      else .ok ctx
    match lowered with
    | .error e => .error e
    | .ok ctx =>
      let pkt := cls.objectData.take 20
      let cls := { cls with objectData := cls.objectData.drop 20 }
      let ctx := { ctx with pkt := pkt, localCrc := crc32 pkt ctx.localCrc }
      let cls := { cls with pktsSent := cls.pktsSent + 1 }
      let ctx := { ctx with bytesSent := ctx.bytesSent + pkt.length }
      if ctx.prn = 0 then .error .zeroDivisionError
      else if cls.pktsSent % ctx.prn ≠ 0 then .ok (.handled cls ctx)
      else if prnNotif.reqOpcode ≠ .CRC_GET then .error .assertionError
      else
        match check_response prnNotif.status with
        | .error e => .error e
        | .ok _ =>
          let ctx := { ctx with offset := prnNotif.offset, targetCrc := prnNotif.crc }
          if prnNotif.offset ≠ some ctx.bytesSent then .error (.dfuErr .BYTES_LOST)
          else if prnNotif.crc ≠ some ctx.localCrc then
            .ok (.transitioned cls ctx .VALIDATE_OBJECT)
          else .ok (.handled cls ctx)

/-- Exit hook `TransferringObjectStateHandler.exit` (`protocol/secure.py`
lines 608-611): always increments the per-object attempt counter. -/
def transferExit (ctx : SecureDFUContext) : SecureDFUContext :=
  { ctx with attempts := ctx.attempts + 1 }

/-- Session context used for exercising the SELECT_OBJECT handler: COMMAND
phase with a 2-byte init packet, `num_objects` already computed. -/
def ctxC1 : SecureDFUContext :=
  { txdata := [1, 2], object := some [1, 2], objType := .COMMAND,
    imgInitData := [1, 2], imgData := [], prn := 0, localCrc := 0,
    bytesSent := 0, objectsSent := 0, numObjects := 1, attempts := 0,
    maxSize := 0, offset := some 0, targetCrc := some 0, pkt := [] }

/-- SELECT response reporting a partial transfer: offset 1 of 2 bytes, with
the target CRC equal to the prefix CRC `crc32(txdata[:1])` that the spec's
resume test compares against. -/
def resC1resume : SecureDFUResponse :=
  { data := [], opcode := .RESPONSE, reqOpcode := .OBJECT_SELECT,
    status := .SUCCESS, maxSize := some 256, offset := some 1,
    crc := some (crc32 [1] 0), error := none }

/-- SELECT response reporting the whole 2-byte payload already transferred. -/
def resC1sent : SecureDFUResponse :=
  { data := [], opcode := .RESPONSE, reqOpcode := .OBJECT_SELECT,
    status := .SUCCESS, maxSize := some 256, offset := some 2,
    crc := some (crc32 [1, 2] 0), error := none }

/-- SELECT response reporting a fresh target: offset 0, CRC 0. -/
def resC1fresh : SecureDFUResponse :=
  { data := [], opcode := .RESPONSE, reqOpcode := .OBJECT_SELECT,
    status := .SUCCESS, maxSize := some 256, offset := some 0,
    crc := some 0, error := none }

/-- C1: the already-sent and not-yet-sent arms of the SELECT_OBJECT three-way
test behave as claimed, but on the resume arm (here offset 1 into a 2-byte
payload with the target CRC equal to the offset-prefix CRC `crc32 [1] 0`) the
handler raises `TypeError` — the source computes `crc32(txdata[offset])` with
a scalar index instead of the prefix `crc32(txdata[:offset])` — so it never
drops the first `offset` bytes nor transitions to TRANSFERRING_OBJECT. -/
theorem c1_select_resume_crash :
    selectHandle ctxC1 resC1sent =
      .ok ({ ctxC1 with maxSize := 256, offset := some 2,
                        targetCrc := some (crc32 [1, 2] 0),
                        object := some [1, 2] }, .EXECUTE_OBJECT) ∧
    selectHandle ctxC1 resC1fresh =
      .ok ({ ctxC1 with maxSize := 256, offset := some 0,
                        targetCrc := some 0 }, .CREATE_OBJECT) ∧
    selectHandle ctxC1 resC1resume = .error .typeError :=
  ⟨rfl, rfl, rfl⟩

/-- Session context used for exercising the VALIDATE_OBJECT handler with one
prior attempt (retries left). -/
def ctxC2a1 : SecureDFUContext :=
  { txdata := [1, 2], object := some [1, 2], objType := .DATA,
    imgInitData := [], imgData := [1, 2], prn := 0, localCrc := 5,
    bytesSent := 2, objectsSent := 1, numObjects := 1, attempts := 1,
    maxSize := 256, offset := some 2, targetCrc := some 0, pkt := [] }

/-- The same context after three attempts (retries exhausted). -/
def ctxC2a3 : SecureDFUContext :=
  { ctxC2a1 with attempts := 3 }

/-- CRC_GET response whose CRC matches `local_crc = 5`. -/
def resC2good : SecureDFUResponse :=
  { data := [], opcode := .RESPONSE, reqOpcode := .CRC_GET,
    status := .SUCCESS, maxSize := none, offset := some 2,
    crc := some 5, error := none }

/-- CRC_GET response whose CRC does not match `local_crc = 5`. -/
def resC2bad : SecureDFUResponse :=
  { data := [], opcode := .RESPONSE, reqOpcode := .CRC_GET,
    status := .SUCCESS, maxSize := none, offset := some 2,
    crc := some 6, error := none }

/-- C2: on a matching CRC the handler transitions to EXECUTE_OBJECT, and on a
mismatch with `attempts >= 3` it raises `CRC_ERROR` (code 309), as claimed;
but on a mismatch with retries left (here `attempts = 1`) it raises
`UnboundLocalError` (the bare `objects_sent -= 1` at `protocol/secure.py`
line 638) instead of transitioning to CREATE_OBJECT. -/
theorem c2_validate_retry_crash :
    validateHandle ctxC2a1 resC2good =
      .ok ({ ctxC2a1 with targetCrc := some 5 }, .EXECUTE_OBJECT) ∧
    validateHandle ctxC2a3 resC2bad = .error (.dfuErr .CRC_ERROR) ∧
    DFUErrorCode.code .CRC_ERROR = 309 ∧
    validateHandle ctxC2a1 resC2bad = .error .unboundLocalError :=
  ⟨rfl, rfl, rfl, rfl⟩

/-- C4: whenever the TRANSFERRING_OBJECT handler awaits a Packet Receipt
Notification (a packet was just sent and the updated packet count is a
multiple of the PRN interval), a reported offset different from `bytes_sent`
raises `BYTES_LOST` (code 308); with the offset matching, a reported CRC
different from `local_crc` transitions to VALIDATE_OBJECT; and the exit hook
increments `attempts` on every exit of the state. -/
theorem c4_prn_validation (cls : TransferVars) (ctx : SecureDFUContext)
    (setPrnStatus : SecureDFUResultCode) (notif : SecureDFUPRN)
    (hsend : ¬ cls.pktsSent ≥ cls.totalPkts)
    (hnolower : ¬ (cls.pktsSent % 10 = 0 ∧ cls.totalPkts - cls.pktsSent < ctx.prn))
    (hprn : ¬ ctx.prn = 0)
    (hmod : (cls.pktsSent + 1) % ctx.prn = 0)
    (hreq : notif.reqOpcode = .CRC_GET)
    (hok : notif.status = .SUCCESS) :
    (notif.offset ≠ some (ctx.bytesSent + (cls.objectData.take 20).length) →
       transferHandle cls ctx setPrnStatus notif = .error (.dfuErr .BYTES_LOST)) ∧
    DFUErrorCode.code .BYTES_LOST = 308 ∧
    (notif.offset = some (ctx.bytesSent + (cls.objectData.take 20).length) →
     notif.crc ≠ some (crc32 (cls.objectData.take 20) ctx.localCrc) →
       transferHandle cls ctx setPrnStatus notif =
         .ok (.transitioned
           { cls with objectData := cls.objectData.drop 20,
                      pktsSent := cls.pktsSent + 1 }
           { ctx with pkt := cls.objectData.take 20,
                      localCrc := crc32 (cls.objectData.take 20) ctx.localCrc,
                      bytesSent := ctx.bytesSent + (cls.objectData.take 20).length,
                      offset := notif.offset, targetCrc := notif.crc }
           .VALIDATE_OBJECT)) ∧
    (∀ c : SecureDFUContext, (transferExit c).attempts = c.attempts + 1) := by
  refine ⟨?_, rfl, ?_, fun c => rfl⟩
  · intro hoff
    simp only [transferHandle, if_neg hsend, if_neg hnolower, if_neg hprn,
      hmod, hreq, hok, check_response]
    simp
    intro h
    rw [List.length_take] at hoff
    exact absurd h hoff
  · intro hoff hcrc
    simp only [transferHandle, if_neg hsend, if_neg hnolower, if_neg hprn,
      hmod, hreq, hok, check_response]
    simp [hoff, hcrc]

/-- Session context for the C4 witness: PRN interval 1, nothing sent yet. -/
def ctxC4 : SecureDFUContext :=
  { txdata := [171], object := some [171], objType := .DATA,
    imgInitData := [], imgData := [171], prn := 1, localCrc := 0,
    bytesSent := 0, objectsSent := 0, numObjects := 1, attempts := 0,
    maxSize := 256, offset := some 0, targetCrc := some 0, pkt := [] }

/-- Witness for C4: a 1-packet object with PRN 1; the notification reports
offset 7 while 1 byte was sent, so the handler raises BYTES_LOST, and the
exit hook increments `attempts`. -/
theorem c4_prn_validation_witness :
    transferHandle ⟨1, 0, [171]⟩ ctxC4 .SUCCESS ⟨.CRC_GET, .SUCCESS, some 7, some 0⟩ =
      .error (.dfuErr .BYTES_LOST) ∧
    (transferExit ctxC4).attempts = ctxC4.attempts + 1 := by
  have h := c4_prn_validation ⟨1, 0, [171]⟩ ctxC4 .SUCCESS ⟨.CRC_GET, .SUCCESS, some 7, some 0⟩
    (by decide) (by decide) (by decide) (by decide) rfl rfl
  exact ⟨h.1 (by decide), h.2.2.2 ctxC4⟩

/-- Result of one `DisconnectedStateHandler.handle` step. -/
inductive ScanOutcome where
  | toTransferDone
  | again (searchAttempts : Nat)
  | toConnecting
  deriving DecidableEq

/-- Handler `DisconnectedStateHandler.handle` (`protocol/secure.py` lines
344-369): with images left to send, a scan that finds no target stays in the
state up to `MAX_ATTEMPTS = 10` and then raises `FAILED_TO_CONNECT`; `found`
models whether `BleakScanner.find_device_by_name` located the target. -/
def disconnectedHandle (imgQueue : List String) (searchAttempts : Nat) (found : Bool) :
    Except PyErr ScanOutcome :=
  if imgQueue.isEmpty then .ok .toTransferDone
  else
    let searchAttempts := searchAttempts + 1
    if ¬ found then
      if searchAttempts < 10 then .ok (.again searchAttempts)
      else .error (.dfuErr .FAILED_TO_CONNECT)
    else .ok .toConnecting

/-- Iterated scan attempts of the DISCONNECTED state with a target that is
never found (the `run()` loop re-dispatches `handle` on status HANDLED). -/
def scanSteps (imgQueue : List String) : Nat → Nat → Except PyErr ScanOutcome
  | a, 0 => .ok (.again a)
  | a, n + 1 =>
    match disconnectedHandle imgQueue a false with
    | .ok (.again a') => scanSteps imgQueue a' n
    | r => r

/-- Terminating cleanup of `SecureDFUManager.run` (`protocol/secure.py` line
326): `finally: await self.context.client.disconnect()`.  The result pairs
the outcome of `run()` with the number of `disconnect()` invocations made by
the cleanup.  `context.client` starts as `None` and is first assigned in
`ConnectingStateHandler.entry`; when it is still `None`, the attribute access
raises `AttributeError` (replacing the in-flight exception) and `disconnect`
is never invoked; with a client, `disconnect` is invoked exactly once and the
body's outcome propagates. -/
def runWithCleanup (body : Except PyErr Unit) (client : Option Unit) :
    Except PyErr Unit × Nat :=
  match client with
  | none => (.error .attributeError, 0)
  | some _ => (body, 1)

/-- Execution of `run()` in the exhausted-scan scenario (spec scenario 7):
ten scans find no device, `FAILED_TO_CONNECT` escapes the dispatch loop with
`context.client` still `None`, and the cleanup runs on the null client. -/
def runScanFailure : Except PyErr Unit × Nat :=
  runWithCleanup
    (match scanSteps ["application"] 0 10 with
     | .ok _ => .ok ()
     | .error e => .error e)
    none

/-- C5 counterexample: in the execution that terminates with
`FAILED_TO_CONNECT` after exhausted scans, the terminating cleanup invokes
`disconnect()` zero times — not exactly once as claimed — and the run
surfaces `AttributeError` instead. -/
theorem c5_cleanup_counterexample :
    scanSteps ["application"] 0 10 = .error (.dfuErr .FAILED_TO_CONNECT) ∧
    runScanFailure.2 = 0 ∧
    runScanFailure.2 ≠ 1 ∧
    runScanFailure.1 = .error .attributeError :=
  ⟨rfl, rfl, by decide, rfl⟩

/-- C5 (amended): for every execution of `run()` in which a transport client
was created, the terminating cleanup invokes `disconnect()` on it exactly
once and the body's outcome (normal or error, such as `CRC_ERROR`)
propagates unchanged. -/
theorem c5_cleanup_amended (body : Except PyErr Unit) (client : Unit) :
    (runWithCleanup body (some client)).2 = 1 ∧
    (runWithCleanup body (some client)).1 = body :=
  ⟨rfl, rfl⟩

/-- Constructor checks of `SecureDFUManager.__init__` (`protocol/secure.py`
lines 292-300) on the package's image-name set.  The second assert evaluates
`"bootloader" in pkg.images and "application" in pkg.images and "softdevice"
not in images`: when the first two conjuncts are true, the third reads the
unbound bare name `images`, a Python `NameError`; otherwise the conjunction
short-circuits and the assert passes. -/
def managerInitCheck (images : List String) : Except PyErr Unit :=
  if images.length = 0 then .error .assertionError
  else if "bootloader" ∈ images then
    if "application" ∈ images then .error .nameError
    else .ok ()
  else .ok ()

/-- C6: a package with bootloader and application but no softdevice is not
rejected with the stated assertion message but crashes with `NameError`, and
a package with all three images — which the claim says is accepted — crashes
with the same `NameError`; combinations without both bootloader and
application are accepted. -/
theorem c6_manager_init_crash :
    managerInitCheck ["bootloader", "softdevice", "application"] = .error .nameError ∧
    managerInitCheck ["bootloader", "application"] = .error .nameError ∧
    managerInitCheck ["softdevice", "application"] = .ok () ∧
    managerInitCheck ["bootloader"] = .ok () :=
  ⟨rfl, rfl, rfl, rfl⟩

/-- Modelled from the spec: the init-packet hash type enum of the SDK
`dfu-cc.proto` schema (missing from the sources as the generated
`dfu_cc_pb2` module; §1 states the schema is reused verbatim from the device
SDK, and §3 lists `NO_HASH, CRC, SHA256, SHA512` with `SHA128` present but
explicitly rejected as invalid). -/
inductive HashType where
  | NO_HASH
  | CRC
  | SHA128
  | SHA256
  | SHA512
  deriving DecidableEq

/-- Modelled from the spec: the `Hash` message of the SDK `dfu-cc.proto`
schema (missing from the sources), carrying exactly the hash type and the
hash bytes (§3 "Init packet (relevant fields)").  It has no field named
`hashimg_type`. -/
structure PBHash where
  hashType : HashType
  hashValue : List Nat
  deriving DecidableEq

/-- Modelled from the spec: the `InitCommand` sub-message, restricted to its
`hash` field, the only one `gen_fw_hash` uses. -/
structure PBInitCommand where
  hash : PBHash
  deriving DecidableEq

/-- Modelled from the spec: a command optionally carrying an `init`
sub-command (`command.HasField("init")`). -/
structure PBCommand where
  init : Option PBInitCommand
  deriving DecidableEq

/-- Modelled from the spec: a signed command wrapping a command (§4.A "an
`init` sub-command (directly or nested inside `signed_command.command`)"). -/
structure PBSignedCommand where
  command : PBCommand
  deriving DecidableEq

/-- Modelled from the spec: the init packet record; `hasFields` stands for
`len(packet.ListFields()) != 0`. -/
structure PBPacket where
  hasFields : Bool
  signedCommand : Option PBSignedCommand
  command : PBCommand
  deriving DecidableEq

/-- Loaded image (`DFUImage` slots of `models/package.py`). -/
structure DFUImage where
  imgType : String
  imgData : List Nat
  initData : List Nat
  initPkt : PBPacket
  deriving DecidableEq

/-- Method `DFUPackage.gen_fw_hash` (`models/package.py` lines 100-132) on a
loaded image.  After the asserts it executes
`hashtype = command.init.hash.hashimg_type`; the `Hash` message of the SDK
schema has no attribute of that name (its field is `hash_type`), so the
lookup raises `AttributeError` on every input, before any of the
`NO_HASH`/`CRC`/`SHA128`/`SHA256`/`SHA512` match arms can run. -/
def gen_fw_hash (img : DFUImage) : Except PyErr (Option (List Nat)) :=
  let packet := img.initPkt
  if ¬ packet.hasFields then .error .assertionError
  else
    let command :=
      match packet.signedCommand with
      | some sc => sc.command
      | none => packet.command
    match command.init with
    | none => .error .assertionError
    | some _ => .error .attributeError

/-- Image whose init packet requests a SHA-256 firmware hash. -/
def imgC9sha256 : DFUImage :=
  { imgType := "application", imgData := [1, 2, 3], initData := [18],
    initPkt := { hasFields := true, signedCommand := none,
                 command := { init := some { hash := { hashType := .SHA256,
                                                       hashValue := [] } } } } }

/-- Image whose init packet requests a CRC firmware hash. -/
def imgC9crc : DFUImage :=
  { imgType := "softdevice", imgData := [1, 2, 3], initData := [18],
    initPkt := { hasFields := true, signedCommand := none,
                 command := { init := some { hash := { hashType := .CRC,
                                                       hashValue := [] } } } } }

/-- C9: `gen_fw_hash` never returns a hash for any loaded image — the
attribute lookup `hashimg_type` on the schema's `Hash` message raises
`AttributeError` first — so in particular the claimed reversed SHA-256
digest and little-endian CRC32 results are never produced. -/
theorem c9_gen_fw_hash_crash :
    (∀ img : DFUImage, ∃ e, gen_fw_hash img = .error e) ∧
    gen_fw_hash imgC9sha256 = .error .attributeError ∧
    gen_fw_hash imgC9crc = .error .attributeError := by
  refine ⟨fun img => ?_, rfl, rfl⟩
  simp only [gen_fw_hash]
  split
  · exact ⟨_, rfl⟩
  · split
    · exact ⟨_, rfl⟩
    · exact ⟨_, rfl⟩
